import Mathlib

/-!
Shallow embedding of the xalpha-openserv agent's two capabilities
(`getAuthorDetails`, `getTopTweets`) from `src/src/index.ts` and
`src/unnamed/part_000`.

Modelling conventions:
* TypeScript `T | null` (and fields the code guards with `?.`) become `Option T`.
* TypeScript `number` is modelled as `Int` for the profile/tweet counter fields
  (all properties at issue concern absence, zero and digit grouping), and as
  `Rat` for the zod `limit` argument, where integrality itself is at issue.
* JavaScript truthiness is embedded explicitly: `s || d` on strings falls
  through exactly on `""`; `n || d` on numbers falls through exactly on `0`;
  arrays are always truthy.
* `axios` rejections are `JsError.axios` carrying an optional response
  (absent on transport-level failures such as DNS/timeout/connection refused)
  — `axios.isAxiosError` is true for those as well.  Other thrown values are
  `JsError.jsError` (an `Error` instance, carrying `message`) or
  `JsError.other` (a thrown non-`Error` value).
* `Number.prototype.toLocaleString()` is modelled as grouped-thousands
  rendering with comma separators (the en-US grouping the spec describes).
-/

/-- `interface AuthorDetails` from the source. -/
structure AuthorDetails where
  author_handle : String
  name : Option String
  bio : Option String
  url_in_bio : Option String
  profile_image_url : Option String
  profile_banner_url : Option String
  followers_count : Option Int
  followings_count : Option Int
  account_created_at : Option String
  crypto_tweets_all : Option Int
  crypto_tweets_views_all : Option Int
  engagement_score : Option Int
  followers_impact : Option Int
  total_symbols_mentioned : Option Int
  symbols_mentioned_in_last_24hr : Option Int
  new_symbols_mentioned_in_last_24hr : Option Int
  unique_author_handle_count : Option Int
  total_mention_count : Option Int
  tags : List String
  mentions_24hr : Option Int
  mindshare : Option Int
  smart_followers_count : Option Int
deriving Repr, DecidableEq

/-- `interface CredBuzzResponse`; `result` is `Option` because the code guards
`!response.data.result`. -/
structure CredBuzzResponse where
  result : Option AuthorDetails
  message : String
deriving Repr, DecidableEq

/-- `interface Tweet`; the counters are `Option` because the code guards each
with `?.`, and `symbols_mentioned` because the code guards it with `|| []`. -/
structure Tweet where
  tweet_id : String
  author_handle : String
  content : String
  created_at : String
  view_count : Option Int
  like_count : Option Int
  reply_count : Option Int
  retweet_count : Option Int
  quote_count : Option Int
  bookmark_count : Option Int
  symbols_mentioned : Option (List String)
deriving Repr, DecidableEq

/-- `interface TopTweetsResponse`; `result` is `Option` because the code guards
`!response.data.result`. -/
structure TopTweetsResponse where
  result : Option (List Tweet)
  message : String
deriving Repr, DecidableEq

/-- Insert a comma after every third character of a reversed digit list
(so commas separate thousands groups once the list is reversed back). -/
def commify : List Char → List Char
  | a :: b :: c :: d :: rest => a :: b :: c :: ',' :: commify (d :: rest)
  | l => l

/-- `Number.prototype.toLocaleString()` on an integer: decimal digits with
grouped-thousands comma separators, a leading minus sign for negatives. -/
def toLocaleString (n : Int) : String :=
  let digits := Nat.toDigits 10 n.natAbs
  let grouped := (commify digits.reverse).reverse
  (if n < 0 then "-" else "") ++ String.mk grouped

/-- JavaScript `s || d` for a possibly-absent string `s`: falls through to `d`
exactly when `s` is absent (`undefined`/`null`) or is the falsy `""`. -/
def jsOrString (s : Option String) (d : String) : String :=
  match s with
  | some v => if v = "" then d else v
  | none => d

/-- `x?.toLocaleString() || 'N/A'` for a possibly-absent number `x`: absent
yields `"N/A"`; present renders via `toLocaleString` (never the empty string,
so the `||` keeps it — in particular `0` renders as `"0"`). -/
def locOrNA (x : Option Int) : String :=
  match x with
  | some n => if toLocaleString n = "" then "N/A" else toLocaleString n
  | none => "N/A"

/-- A JSON value as produced by the formatting layer (no `null`: every branch
of the code substitutes a sentinel before serialization). -/
inductive Json where
  | str (s : String)
  | num (n : Int)
  | arr (xs : List Json)
  | obj (fields : List (String × Json))
deriving Repr

/-- JavaScript `x || 'N/A'` for a possibly-absent number `x` used directly as a
JSON field: absent or the falsy `0` yields the string `"N/A"`; any other
present number passes through as a raw JSON number (no grouping). -/
def jsOrNA (x : Option Int) : Json :=
  match x with
  | some n => if n = 0 then Json.str "N/A" else Json.num n
  | none => Json.str "N/A"

/-- The `formattedDetails` object literal built by `getAuthorDetails`. -/
structure FormattedDetails where
  handle : String
  name : String
  bio : String
  profileUrl : String
  followers : String
  following : String
  accountCreated : String
  cryptoTweets : String
  cryptoTweetViews : String
  engagementScore : Json
  followersImpact : Json
  symbolsMentioned : Json
  symbolsLast24h : Json
  newSymbolsLast24h : Json
  mentions24h : Json
  mindshare : Json
  smartFollowers : String
  tags : List String
deriving Repr

/-- The body of the `formattedDetails` construction in `getAuthorDetails`,
field by field from the source. -/
def formattedDetails (author : AuthorDetails) : FormattedDetails where
  handle := author.author_handle
  name := jsOrString author.name "N/A"
  bio := jsOrString author.bio "N/A"
  profileUrl := jsOrString author.url_in_bio "N/A"
  followers := locOrNA author.followers_count
  following := locOrNA author.followings_count
  accountCreated := jsOrString author.account_created_at "N/A"
  cryptoTweets := locOrNA author.crypto_tweets_all
  cryptoTweetViews := locOrNA author.crypto_tweets_views_all
  engagementScore := jsOrNA author.engagement_score
  followersImpact := jsOrNA author.followers_impact
  symbolsMentioned := jsOrNA author.total_symbols_mentioned
  symbolsLast24h := jsOrNA author.symbols_mentioned_in_last_24hr
  newSymbolsLast24h := jsOrNA author.new_symbols_mentioned_in_last_24hr
  mentions24h := jsOrNA author.mentions_24hr
  mindshare := jsOrNA author.mindshare
  smartFollowers := locOrNA author.smart_followers_count
  tags := if author.tags.length > 0 then author.tags else ["None"]

/-- Two-space-per-level indentation used by `JSON.stringify(value, null, 2)`. -/
def indentStr (n : Nat) : String :=
  String.mk (List.replicate n ' ')

/-- JSON string escaping for the characters that can occur in the values at
issue: quote, backslash and the common control characters. -/
def escapeChar (c : Char) : String :=
  if c = '"' then "\\\""
  else if c = '\\' then "\\\\"
  else if c = '\n' then "\\n"
  else if c = '\t' then "\\t"
  else if c = '\r' then "\\r"
  else String.singleton c

/-- Escape a whole string for inclusion in a JSON document. -/
def escapeString (s : String) : String :=
  String.join (s.data.map escapeChar)

mutual

/-- `JSON.stringify(v, null, 2)` at indentation level `ind`. -/
def stringifyAt (ind : Nat) : Json → String
  | Json.str s => "\"" ++ escapeString s ++ "\""
  | Json.num n => toString n
  | Json.arr [] => "[]"
  | Json.arr (x :: xs) =>
      "[\n" ++ stringifyItems (ind + 2) x xs ++ "\n" ++ indentStr ind ++ "]"
  | Json.obj [] => "\x7b\x7d"
  | Json.obj ((k, v) :: fs) =>
      "\x7b\n" ++ stringifyFields (ind + 2) k v fs ++ "\n" ++ indentStr ind ++ "\x7d"
termination_by v => sizeOf v

/-- Comma-and-newline separated array items, each on its own indented line. -/
def stringifyItems (ind : Nat) (x : Json) : List Json → String
  | [] => indentStr ind ++ stringifyAt ind x
  | y :: ys => indentStr ind ++ stringifyAt ind x ++ ",\n" ++ stringifyItems ind y ys
termination_by l => sizeOf x + sizeOf l

/-- Comma-and-newline separated object fields, each on its own indented line. -/
def stringifyFields (ind : Nat) (k : String) (v : Json) : List (String × Json) → String
  | [] => indentStr ind ++ "\"" ++ escapeString k ++ "\": " ++ stringifyAt ind v
  | (k2, v2) :: gs =>
      indentStr ind ++ "\"" ++ escapeString k ++ "\": " ++ stringifyAt ind v
        ++ ",\n" ++ stringifyFields ind k2 v2 gs
termination_by l => sizeOf v + sizeOf l

end

/-- `JSON.stringify(v, null, 2)` (top level). -/
def Json.stringify (v : Json) : String :=
  stringifyAt 0 v

/-- The `formattedDetails` object literal as the JSON value that
`JSON.stringify(formattedDetails, null, 2)` serializes, fields in source
order. -/
def FormattedDetails.toJson (d : FormattedDetails) : Json :=
  Json.obj
    [ ("handle", Json.str d.handle)
    , ("name", Json.str d.name)
    , ("bio", Json.str d.bio)
    , ("profileUrl", Json.str d.profileUrl)
    , ("followers", Json.str d.followers)
    , ("following", Json.str d.following)
    , ("accountCreated", Json.str d.accountCreated)
    , ("cryptoTweets", Json.str d.cryptoTweets)
    , ("cryptoTweetViews", Json.str d.cryptoTweetViews)
    , ("engagementScore", d.engagementScore)
    , ("followersImpact", d.followersImpact)
    , ("symbolsMentioned", d.symbolsMentioned)
    , ("symbolsLast24h", d.symbolsLast24h)
    , ("newSymbolsLast24h", d.newSymbolsLast24h)
    , ("mentions24h", d.mentions24h)
    , ("mindshare", d.mindshare)
    , ("smartFollowers", Json.str d.smartFollowers)
    , ("tags", Json.arr (d.tags.map Json.str))
    ]

/-- An HTTP response attached to an axios error: status code and status text
(as seen through `error.response?.status` / `error.response?.statusText`). -/
structure HttpResp where
  status : Nat
  statusText : String
deriving Repr, DecidableEq

/-- A value caught by the capability's `catch` block. -/
inductive JsError where
  /-- An error for which `axios.isAxiosError` is true.  `response` is absent
  exactly on transport-level failures (DNS failure, timeout, connection
  refused): axios wraps those in an `AxiosError` with no response. -/
  | axios (response : Option HttpResp) (message : Option String)
  /-- A thrown non-axios `Error` instance (carries `message`). -/
  | jsError (message : String)
  /-- A thrown value that is not an `Error` instance. -/
  | other
deriving Repr, DecidableEq

/-- Template-literal rendering of `error.response?.status`: `undefined` when
the response is absent. -/
def renderOptStatus : Option Nat → String
  | some n => toString n
  | none => "undefined"

/-- Template-literal rendering of `error.response?.statusText`. -/
def renderOptText : Option String → String
  | some s => s
  | none => "undefined"

/-- The `axios.isAxiosError(error)` branch of `getAuthorDetails`'s catch
handler, from the source. -/
def authorDetailsAxiosBranch (response : Option HttpResp) : String :=
  if response.map HttpResp.status = some 404 then
    "Author not found. Please check the handle and try again."
  else if response.map HttpResp.status = some 429 then
    "Rate limit exceeded. Please try again later."
  else
    "API error: " ++ renderOptStatus (response.map HttpResp.status)
      ++ " - " ++ renderOptText (response.map HttpResp.statusText)

/-- The whole `catch` handler of `getAuthorDetails`. -/
def getAuthorDetailsOnError : JsError → String
  | JsError.axios response _ => authorDetailsAxiosBranch response
  | JsError.jsError message => "Error fetching author details: " ++ message
  | JsError.other => "Error fetching author details: Unknown error"

/-- The `axios.isAxiosError(error)` branch of `getTopTweets`'s catch handler,
from the source. -/
def topTweetsAxiosBranch (response : Option HttpResp) : String :=
  if response.map HttpResp.status = some 404 then
    "Author not found or no tweets available. Please check the handle and try again."
  else if response.map HttpResp.status = some 429 then
    "Rate limit exceeded. Please try again later."
  else
    "API error: " ++ renderOptStatus (response.map HttpResp.status)
      ++ " - " ++ renderOptText (response.map HttpResp.statusText)

/-- The whole `catch` handler of `getTopTweets`. -/
def getTopTweetsOnError : JsError → String
  | JsError.axios response _ => topTweetsAxiosBranch response
  | JsError.jsError message => "Error fetching top tweets: " ++ message
  | JsError.other => "Error fetching top tweets: Unknown error"

/-- Outcome of the single `await axios.get(...)` inside the `try` block: the
promise resolves with a body (`response.data`, `Option` because the code
guards `!response.data`), or it rejects / something in the `try` throws. -/
inductive FetchOutcome (β : Type) where
  | ok (data : Option β)
  | threw (e : JsError)
deriving Repr

/-- The `run` handler of the `getAuthorDetails` capability: the whole
`try`/`catch` body after the request, as a function of the fetch outcome. -/
def getAuthorDetailsRun (outcome : FetchOutcome CredBuzzResponse) : String :=
  match outcome with
  | FetchOutcome.threw e => getAuthorDetailsOnError e
  | FetchOutcome.ok data =>
    match data with
    | none => "No author details found for the provided handle."
    | some body =>
      match body.result with
      | none => "No author details found for the provided handle."
      | some author => Json.stringify (FormattedDetails.toJson (formattedDetails author))

/-- The six-counter `metrics` sub-object of a formatted tweet. -/
structure TweetMetrics where
  views : String
  likes : String
  replies : String
  retweets : String
  quotes : String
  bookmarks : String
deriving Repr, DecidableEq

/-- One element of the `formattedTweets` array built by `getTopTweets`
(`index` is the 0-based map index; `position` is `index + 1`). -/
structure FormattedTweet where
  position : Nat
  tweetId : String
  content : String
  createdAt : String
  metrics : TweetMetrics
  symbolsMentioned : List String
deriving Repr, DecidableEq

/-- The body of the `tweets.map((tweet, index) => ...)` callback. -/
def formatTweet (index : Nat) (tweet : Tweet) : FormattedTweet where
  position := index + 1
  tweetId := tweet.tweet_id
  content := tweet.content
  createdAt := tweet.created_at
  metrics :=
    { views := locOrNA tweet.view_count
    , likes := locOrNA tweet.like_count
    , replies := locOrNA tweet.reply_count
    , retweets := locOrNA tweet.retweet_count
    , quotes := locOrNA tweet.quote_count
    , bookmarks := locOrNA tweet.bookmark_count }
  symbolsMentioned :=
    match tweet.symbols_mentioned with
    | some l => l
    | none => []

/-- `tweets.map((tweet, index) => ...)` with its running index. -/
def formatTweets : Nat → List Tweet → List FormattedTweet
  | _, [] => []
  | i, t :: rest => formatTweet i t :: formatTweets (i + 1) rest

/-- A formatted tweet as a JSON value, fields in source order. -/
def FormattedTweet.toJson (t : FormattedTweet) : Json :=
  Json.obj
    [ ("position", Json.num (t.position : Int))
    , ("tweetId", Json.str t.tweetId)
    , ("content", Json.str t.content)
    , ("createdAt", Json.str t.createdAt)
    , ("metrics", Json.obj
        [ ("views", Json.str t.metrics.views)
        , ("likes", Json.str t.metrics.likes)
        , ("replies", Json.str t.metrics.replies)
        , ("retweets", Json.str t.metrics.retweets)
        , ("quotes", Json.str t.metrics.quotes)
        , ("bookmarks", Json.str t.metrics.bookmarks)
        ])
    , ("symbolsMentioned", Json.arr (t.symbolsMentioned.map Json.str))
    ]

/-- The validated arguments of one `getTopTweets` invocation (`interval` and
`sort_by` hold the validated enum literals; `limit` plays no further role in
formatting beyond the query string). -/
structure TopTweetsArgs where
  author_handle : String
  interval : String
  sort_by : String
deriving Repr, DecidableEq

/-- The `summary` object of `getTopTweets` as a JSON value. -/
def summaryJson (args : TopTweetsArgs) (tweets : List Tweet) : Json :=
  Json.obj
    [ ("author", Json.str args.author_handle)
    , ("totalTweets", Json.num (tweets.length : Int))
    , ("interval", Json.str args.interval)
    , ("sortedBy", Json.str args.sort_by)
    , ("tweets", Json.arr ((formatTweets 0 tweets).map FormattedTweet.toJson))
    ]

/-- The `run` handler of the `getTopTweets` capability: the whole
`try`/`catch` body after the request, as a function of the fetch outcome. -/
def getTopTweetsRun (args : TopTweetsArgs) (outcome : FetchOutcome TopTweetsResponse) : String :=
  match outcome with
  | FetchOutcome.threw e => getTopTweetsOnError e
  | FetchOutcome.ok data =>
    match data with
    | none => "No response received from the API."
    | some body =>
      match body.result with
      | none =>
          "No tweets found for author \"" ++ args.author_handle
            ++ "\" in the specified time period."
      | some tweets =>
        if tweets.length = 0 then
          "No tweets found for author \"" ++ args.author_handle
            ++ "\" in the specified time period."
        else
          Json.stringify (summaryJson args tweets)

/-- Outcome of parsing one field with the zod schema: the validated value, or
a structured rejection message for that field. -/
inductive ZodResult (α : Type) where
  | ok (value : α)
  | invalid (message : String)
deriving Repr, DecidableEq

/-- The `author_handle: z.string()` schema field (both capabilities): the
argument is required (absent input is rejected), and any string — including
the empty string — passes, since the schema adds no length constraint. -/
def parse_author_handle : Option String → ZodResult String
  | none => ZodResult.invalid "Required"
  | some s => ZodResult.ok s

/-- The `limit: z.number().min(1).max(50).default(5)` schema field of
`getTopTweets`: absent input takes the default `5`; a present number is
checked against the two bounds (no integrality check — `z.number()` accepts
any number).  JavaScript numbers are modelled as `Rat`. -/
def parse_limit : Option Rat → ZodResult Rat
  | none => ZodResult.ok 5
  | some q =>
      if q < 1 then ZodResult.invalid "Number must be greater than or equal to 1"
      else if 50 < q then ZodResult.invalid "Number must be less than or equal to 50"
      else ZodResult.ok q

/-- A concrete profile with every optional field absent and an empty tag
list (the upstream "all unknown" shape). -/
def authorAllAbsent : AuthorDetails where
  author_handle := "alice"
  name := none
  bio := none
  url_in_bio := none
  profile_image_url := none
  profile_banner_url := none
  followers_count := none
  followings_count := none
  account_created_at := none
  crypto_tweets_all := none
  crypto_tweets_views_all := none
  engagement_score := none
  followers_impact := none
  total_symbols_mentioned := none
  symbols_mentioned_in_last_24hr := none
  new_symbols_mentioned_in_last_24hr := none
  unique_author_handle_count := none
  total_mention_count := none
  tags := []
  mentions_24hr := none
  mindshare := none
  smart_followers_count := none

/-- A concrete profile whose score fields are present and zero (and one large
present count), exercising the `x || 'N/A'` zero behaviour. -/
def authorWithZeroScore : AuthorDetails :=
  { authorAllAbsent with
      followers_count := some 1234567
      followings_count := some 0
      engagement_score := some 0
      mindshare := some 1234567 }

/-- A concrete profile whose score fields are present and nonzero. -/
def authorWithNonzeroScore : AuthorDetails :=
  { authorAllAbsent with
      engagement_score := some 42
      followers_impact := some 7
      total_symbols_mentioned := some 3
      symbols_mentioned_in_last_24hr := some 2
      new_symbols_mentioned_in_last_24hr := some 1
      mentions_24hr := some 9
      mindshare := some 11
      crypto_tweets_all := some 0
      crypto_tweets_views_all := some 0
      smart_followers_count := some 0 }

/-- A concrete profile whose string fields are present but empty. -/
def authorWithEmptyStrings : AuthorDetails :=
  { authorAllAbsent with
      name := some ""
      bio := some ""
      url_in_bio := some ""
      account_created_at := some "" }

/-- A concrete profile with a non-empty tag list. -/
def authorWithTags : AuthorDetails :=
  { authorAllAbsent with tags := ["influencer", "crypto"] }

/-- A concrete tweet whose `symbols_mentioned` is present and empty. -/
def tweetNoSymbols : Tweet where
  tweet_id := "123"
  author_handle := "alice"
  content := "gm"
  created_at := "2024-01-01T00:00:00Z"
  view_count := some 10
  like_count := some 0
  reply_count := none
  retweet_count := none
  quote_count := none
  bookmark_count := none
  symbols_mentioned := some []

/-- Concrete validated arguments for a `getTopTweets` invocation. -/
def sampleArgs : TopTweetsArgs where
  author_handle := "alice"
  interval := "7day"
  sort_by := "view_count_desc"

theorem commify_length : ∀ l : List Char, l.length ≤ (commify l).length
  | [] => by simp [commify]
  | [a] => by simp [commify]
  | [a, b] => by simp [commify]
  | [a, b, c] => by simp [commify]
  | a :: b :: c :: d :: rest => by
      have ih := commify_length (d :: rest)
      simp only [commify, List.length_cons] at *
      omega

theorem toDigitsCore_len_mono (b : Nat) :
    ∀ (fuel n : Nat) (ds : List Char), ds.length ≤ (Nat.toDigitsCore b fuel n ds).length
  | 0, _, _ => le_refl _
  | fuel + 1, n, ds => by
      simp only [Nat.toDigitsCore]
      split
      · simp
      · exact le_trans (by simp) (toDigitsCore_len_mono b fuel (n / b) _)

theorem toDigitsCore_len_pos (b : Nat) :
    ∀ (fuel n : Nat) (ds : List Char), 0 < fuel →
      ds.length < (Nat.toDigitsCore b fuel n ds).length
  | fuel + 1, n, ds, _ => by
      simp only [Nat.toDigitsCore]
      split
      · simp
      · exact lt_of_lt_of_le (by simp) (toDigitsCore_len_mono b fuel (n / b) _)

theorem toDigits_length_pos (b n : Nat) : 0 < (Nat.toDigits b n).length := by
  unfold Nat.toDigits
  simpa using toDigitsCore_len_pos b (n + 1) n [] (Nat.succ_pos n)

theorem toLocaleString_length_pos (n : Int) : 0 < (toLocaleString n).length := by
  unfold toLocaleString
  rw [String.length_append]
  have h1 : 0 < (Nat.toDigits 10 n.natAbs).length := toDigits_length_pos 10 n.natAbs
  have h2 := commify_length (Nat.toDigits 10 n.natAbs).reverse
  simp only [List.length_reverse] at h2
  have h3 : (String.mk ((commify (Nat.toDigits 10 n.natAbs).reverse).reverse)).length
      = (commify (Nat.toDigits 10 n.natAbs).reverse).length := by
    simp [String.length, List.length_reverse]
  omega

theorem toLocaleString_ne_empty (n : Int) : toLocaleString n = "" → False := by
  intro h
  have := toLocaleString_length_pos n
  rw [h] at this
  simp at this

theorem locOrNA_some (n : Int) : locOrNA (some n) = toLocaleString n := by
  simp only [locOrNA]
  split
  · exact absurd (by assumption) (toLocaleString_ne_empty n)
  · rfl

theorem jsOrNA_nonzero (n : Int) (h : n ≠ 0) : jsOrNA (some n) = Json.num n := by
  simp [jsOrNA, h]

theorem append_length_pos (s t : String) (h : 0 < s.length) : 0 < (s ++ t).length := by
  rw [String.length_append]; omega

theorem stringify_obj_cons_length_pos (ind : Nat) (k : String) (v : Json)
    (fs : List (String × Json)) :
    0 < (stringifyAt ind (Json.obj ((k, v) :: fs))).length := by
  simp only [stringifyAt]
  exact append_length_pos _ _ (append_length_pos _ _ (append_length_pos _ _
    (append_length_pos _ _ (by decide))))

/-- C1: FALSIFYING EVALUATION (code bug).  A transport-level failure with no
HTTP response is an axios error (`axios.isAxiosError` is true for DNS
failures, timeouts and refused connections), so both capabilities take the
`isAxiosError` branch of the catch handler, fall through its two status
checks, and return the literal `"API error: undefined - undefined"` — not a
string beginning with `"Error fetching"` carrying the failure's message as
the claim (and the spec's error table) states.  The `"Error fetching ..."`
branch is reachable only for thrown non-axios errors. -/
theorem C1_transport_failure_yields_api_error_undefined :
    getAuthorDetailsRun (FetchOutcome.threw
        (JsError.axios none (some "connect ECONNREFUSED 127.0.0.1:443")))
      = "API error: undefined - undefined"
  ∧ getTopTweetsRun sampleArgs (FetchOutcome.threw
        (JsError.axios none (some "connect ECONNREFUSED 127.0.0.1:443")))
      = "API error: undefined - undefined" :=
  ⟨rfl, rfl⟩

/-- C3 counterexample: the schema `z.number().min(1).max(50)` has no
integrality check, so the non-integer `5/2` (denominator 2) passes
validation, contradicting the claim that non-integer values are rejected. -/
theorem C3_noninteger_limit_accepted_counterexample :
    (mkRat 5 2).den = 2 ∧ parse_limit (some (mkRat 5 2)) = ZodResult.ok (mkRat 5 2) :=
  ⟨rfl, rfl⟩

/-- C3 (amended): `limit` is validated as a number in the inclusive range
`[1, 50]` — out-of-range values (in particular 0 and 51) are validation
failures rather than being clamped, the boundary values 1 and 50 are
accepted, an omitted limit defaults to 5, and every number within the
bounds (integer or not) is accepted; there is no integrality check. -/
theorem C3_limit_validation_amended :
    parse_limit none = ZodResult.ok 5
  ∧ parse_limit (some 0) = ZodResult.invalid "Number must be greater than or equal to 1"
  ∧ parse_limit (some 51) = ZodResult.invalid "Number must be less than or equal to 50"
  ∧ parse_limit (some 1) = ZodResult.ok 1
  ∧ parse_limit (some 50) = ZodResult.ok 50
  ∧ (∀ q : Rat, 1 ≤ q → q ≤ 50 → parse_limit (some q) = ZodResult.ok q)
  ∧ (∀ q : Rat, q < 1 ∨ 50 < q →
      ∃ m, parse_limit (some q) = ZodResult.invalid m) := by
  refine ⟨rfl, rfl, rfl, rfl, rfl, ?_, ?_⟩
  · intro q h1 h2
    simp only [parse_limit]
    rw [if_neg (not_lt.mpr h1), if_neg (not_lt.mpr h2)]
  · intro q h
    rcases h with h | h
    · exact ⟨"Number must be greater than or equal to 1", by
        simp only [parse_limit]; rw [if_pos h]⟩
    · exact ⟨"Number must be less than or equal to 50", by
        simp only [parse_limit]; rw [if_neg (by linarith), if_pos h]⟩

/-- C3 witness: the amended validation applied at the concrete in-range
limit `7/2` and the concrete out-of-range limit `51`. -/
theorem C3_limit_validation_amended_witness :
    parse_limit (some (mkRat 7 2)) = ZodResult.ok (mkRat 7 2)
  ∧ ∃ m, parse_limit (some 51) = ZodResult.invalid m :=
  ⟨C3_limit_validation_amended.2.2.2.2.2.1 (mkRat 7 2) (by norm_num) (by norm_num),
   C3_limit_validation_amended.2.2.2.2.2.2 51 (Or.inr (by norm_num))⟩

/-- C4 counterexample: the schema field is plain `z.string()` with no
minimum-length refinement, so the empty-string handle passes validation,
contradicting the claim that an empty handle is a validation failure. -/
theorem C4_empty_handle_accepted_counterexample :
    parse_author_handle (some "") = ZodResult.ok "" :=
  rfl

/-- C4 (amended): `author_handle` is a required string — an absent argument
is a validation failure reported by the schema (hence before any network
call) — but the schema imposes no non-emptiness: every string, including
the empty string, passes validation. -/
theorem C4_handle_validation_amended :
    parse_author_handle none = ZodResult.invalid "Required"
  ∧ ∀ s : String, parse_author_handle (some s) = ZodResult.ok s :=
  ⟨rfl, fun _ => rfl⟩

/-- C9: empty-result handling on a resolved (2xx) response.  A body lacking
a `result` object makes `getAuthorDetails` return the fixed message; an
entirely absent body makes `getTopTweets` return the fixed no-response
message; an absent or empty `result` sequence makes `getTopTweets` return
the no-tweets message with the caller's handle substituted. -/
theorem C9_empty_result_messages (m : String) (args : TopTweetsArgs) :
    getAuthorDetailsRun (FetchOutcome.ok (some { result := none, message := m }))
      = "No author details found for the provided handle."
  ∧ getAuthorDetailsRun (FetchOutcome.ok none)
      = "No author details found for the provided handle."
  ∧ getTopTweetsRun args (FetchOutcome.ok none)
      = "No response received from the API."
  ∧ getTopTweetsRun args (FetchOutcome.ok (some { result := none, message := m }))
      = "No tweets found for author \"" ++ args.author_handle
          ++ "\" in the specified time period."
  ∧ getTopTweetsRun args (FetchOutcome.ok (some { result := some [], message := m }))
      = "No tweets found for author \"" ++ args.author_handle
          ++ "\" in the specified time period." :=
  ⟨rfl, rfl, rfl, rfl, rfl⟩

/-- C2 counterexample: `engagement_score` is present with value `0`, yet the
rendered `engagementScore` field is the sentinel string `"N/A"` (the code
uses plain `author.engagement_score || 'N/A'`, and `0` is falsy), so a
present zero IS confused with absence — and `mindshare` is present with
value `1234567`, yet it is rendered as the raw JSON number `1234567`, not
with grouped-thousands formatting. -/
theorem C2_present_zero_renders_sentinel_counterexample :
    authorWithZeroScore.engagement_score = some 0
  ∧ (formattedDetails authorWithZeroScore).engagementScore = Json.str "N/A"
  ∧ authorWithZeroScore.mindshare = some 1234567
  ∧ (formattedDetails authorWithZeroScore).mindshare = Json.num 1234567 :=
  ⟨rfl, rfl, rfl, rfl⟩

/-- C2 (amended): the numeric fields split into two classes.  The five
count fields formatted with `?.toLocaleString() || 'N/A'` (`followers`,
`following`, `cryptoTweets`, `cryptoTweetViews`, `smartFollowers`) render a
present value with grouped-thousands formatting and render a present zero
as `"0"`, never as `"N/A"`.  The seven fields formatted with plain
`x || 'N/A'` (`engagementScore`, `followersImpact`, `symbolsMentioned`,
`symbolsLast24h`, `newSymbolsLast24h`, `mentions24h`, `mindshare`) render a
present zero as the sentinel `"N/A"` — confusing absence with zero — and
render any other present value as the raw JSON number, without
grouped-thousands formatting. -/
theorem C2_numeric_rendering_amended (a : AuthorDetails) :
    (∀ n, a.followers_count = some n → (formattedDetails a).followers = toLocaleString n)
  ∧ (∀ n, a.followings_count = some n → (formattedDetails a).following = toLocaleString n)
  ∧ (∀ n, a.crypto_tweets_all = some n → (formattedDetails a).cryptoTweets = toLocaleString n)
  ∧ (∀ n, a.crypto_tweets_views_all = some n →
      (formattedDetails a).cryptoTweetViews = toLocaleString n)
  ∧ (∀ n, a.smart_followers_count = some n →
      (formattedDetails a).smartFollowers = toLocaleString n)
  ∧ toLocaleString 0 = "0"
  ∧ toLocaleString 1234567 = "1,234,567"
  ∧ (a.engagement_score = some 0 → (formattedDetails a).engagementScore = Json.str "N/A")
  ∧ (∀ n, n ≠ 0 → a.engagement_score = some n →
      (formattedDetails a).engagementScore = Json.num n)
  ∧ (a.followers_impact = some 0 → (formattedDetails a).followersImpact = Json.str "N/A")
  ∧ (∀ n, n ≠ 0 → a.followers_impact = some n →
      (formattedDetails a).followersImpact = Json.num n)
  ∧ (a.total_symbols_mentioned = some 0 →
      (formattedDetails a).symbolsMentioned = Json.str "N/A")
  ∧ (∀ n, n ≠ 0 → a.total_symbols_mentioned = some n →
      (formattedDetails a).symbolsMentioned = Json.num n)
  ∧ (a.symbols_mentioned_in_last_24hr = some 0 →
      (formattedDetails a).symbolsLast24h = Json.str "N/A")
  ∧ (∀ n, n ≠ 0 → a.symbols_mentioned_in_last_24hr = some n →
      (formattedDetails a).symbolsLast24h = Json.num n)
  ∧ (a.new_symbols_mentioned_in_last_24hr = some 0 →
      (formattedDetails a).newSymbolsLast24h = Json.str "N/A")
  ∧ (∀ n, n ≠ 0 → a.new_symbols_mentioned_in_last_24hr = some n →
      (formattedDetails a).newSymbolsLast24h = Json.num n)
  ∧ (a.mentions_24hr = some 0 → (formattedDetails a).mentions24h = Json.str "N/A")
  ∧ (∀ n, n ≠ 0 → a.mentions_24hr = some n →
      (formattedDetails a).mentions24h = Json.num n)
  ∧ (a.mindshare = some 0 → (formattedDetails a).mindshare = Json.str "N/A")
  ∧ (∀ n, n ≠ 0 → a.mindshare = some n → (formattedDetails a).mindshare = Json.num n) := by
  refine ⟨fun n h => ?_, fun n h => ?_, fun n h => ?_, fun n h => ?_, fun n h => ?_,
    rfl, by decide, fun h => ?_, fun n hn h => ?_, fun h => ?_, fun n hn h => ?_,
    fun h => ?_, fun n hn h => ?_, fun h => ?_, fun n hn h => ?_, fun h => ?_,
    fun n hn h => ?_, fun h => ?_, fun n hn h => ?_, fun h => ?_, fun n hn h => ?_⟩
  all_goals simp [formattedDetails, h, locOrNA_some, jsOrNA, jsOrNA_nonzero, *]

/-- C2 witness: the amended rendering applied at two concrete profiles —
one with present zeros and a large present count, one with present nonzero
scores. -/
theorem C2_numeric_rendering_amended_witness :
    (formattedDetails authorWithZeroScore).followers = toLocaleString 1234567
  ∧ (formattedDetails authorWithZeroScore).following = toLocaleString 0
  ∧ (formattedDetails authorWithZeroScore).engagementScore = Json.str "N/A"
  ∧ (formattedDetails authorWithNonzeroScore).engagementScore = Json.num 42
  ∧ (formattedDetails authorWithNonzeroScore).mindshare = Json.num 11 :=
  ⟨(C2_numeric_rendering_amended authorWithZeroScore).1 1234567 rfl,
   (C2_numeric_rendering_amended authorWithZeroScore).2.1 0 rfl,
   (C2_numeric_rendering_amended authorWithZeroScore).2.2.2.2.2.2.2.1 rfl,
   (C2_numeric_rendering_amended authorWithNonzeroScore).2.2.2.2.2.2.2.2.1 42
     (by decide) rfl,
   (C2_numeric_rendering_amended authorWithNonzeroScore).2.2.2.2.2.2.2.2.2.2.2.2.2.2.2.2.2.2.2.2 11
     (by decide) rfl⟩

/-- C6: when the upstream body carries a `result`, the successful
`getAuthorDetails` output is the `JSON.stringify` serialization of the
formatted presentation object (hence valid JSON), and every absent (null)
optional field of the profile renders as exactly the literal sentinel
`"N/A"` — a string, so in particular never JSON `null`, never the string
`"null"`, and never the number `0`. -/
theorem C6_absent_fields_render_sentinel (a : AuthorDetails) (m : String) :
    getAuthorDetailsRun (FetchOutcome.ok (some { result := some a, message := m }))
      = Json.stringify (FormattedDetails.toJson (formattedDetails a))
  ∧ (a.name = none → (formattedDetails a).name = "N/A")
  ∧ (a.bio = none → (formattedDetails a).bio = "N/A")
  ∧ (a.url_in_bio = none → (formattedDetails a).profileUrl = "N/A")
  ∧ (a.followers_count = none → (formattedDetails a).followers = "N/A")
  ∧ (a.followings_count = none → (formattedDetails a).following = "N/A")
  ∧ (a.account_created_at = none → (formattedDetails a).accountCreated = "N/A")
  ∧ (a.crypto_tweets_all = none → (formattedDetails a).cryptoTweets = "N/A")
  ∧ (a.crypto_tweets_views_all = none → (formattedDetails a).cryptoTweetViews = "N/A")
  ∧ (a.engagement_score = none → (formattedDetails a).engagementScore = Json.str "N/A")
  ∧ (a.followers_impact = none → (formattedDetails a).followersImpact = Json.str "N/A")
  ∧ (a.total_symbols_mentioned = none →
      (formattedDetails a).symbolsMentioned = Json.str "N/A")
  ∧ (a.symbols_mentioned_in_last_24hr = none →
      (formattedDetails a).symbolsLast24h = Json.str "N/A")
  ∧ (a.new_symbols_mentioned_in_last_24hr = none →
      (formattedDetails a).newSymbolsLast24h = Json.str "N/A")
  ∧ (a.mentions_24hr = none → (formattedDetails a).mentions24h = Json.str "N/A")
  ∧ (a.mindshare = none → (formattedDetails a).mindshare = Json.str "N/A")
  ∧ (a.smart_followers_count = none → (formattedDetails a).smartFollowers = "N/A") := by
  refine ⟨rfl, fun h => ?_, fun h => ?_, fun h => ?_, fun h => ?_, fun h => ?_,
    fun h => ?_, fun h => ?_, fun h => ?_, fun h => ?_, fun h => ?_, fun h => ?_,
    fun h => ?_, fun h => ?_, fun h => ?_, fun h => ?_, fun h => ?_⟩
  all_goals simp [formattedDetails, h, jsOrString, locOrNA, jsOrNA]

/-- C6 witness: the sentinel rendering applied at the concrete profile with
every optional field absent. -/
theorem C6_absent_fields_render_sentinel_witness :
    getAuthorDetailsRun (FetchOutcome.ok (some { result := some authorAllAbsent, message := "ok" }))
      = Json.stringify (FormattedDetails.toJson (formattedDetails authorAllAbsent))
  ∧ (formattedDetails authorAllAbsent).name = "N/A"
  ∧ (formattedDetails authorAllAbsent).followers = "N/A"
  ∧ (formattedDetails authorAllAbsent).engagementScore = Json.str "N/A"
  ∧ (formattedDetails authorAllAbsent).mindshare = Json.str "N/A" :=
  ⟨(C6_absent_fields_render_sentinel authorAllAbsent "ok").1,
   (C6_absent_fields_render_sentinel authorAllAbsent "ok").2.1 rfl,
   (C6_absent_fields_render_sentinel authorAllAbsent "ok").2.2.2.2.1 rfl,
   (C6_absent_fields_render_sentinel authorAllAbsent "ok").2.2.2.2.2.2.2.2.2.1 rfl,
   (C6_absent_fields_render_sentinel authorAllAbsent "ok").2.2.2.2.2.2.2.2.2.2.2.2.2.2.2.1 rfl⟩

/-- C7: the empty-collection rule is asymmetric.  An empty profile tag list
renders as `["None"]` and a non-empty tag list passes through unchanged
(order preserved), while a tweet's present-but-empty `symbols_mentioned`
list passes through as `[]` (arrays are truthy in JavaScript, so `|| []`
never rewrites it), and any present symbol list passes through unchanged. -/
theorem C7_empty_collection_asymmetry (a : AuthorDetails) (t : Tweet) (i : Nat) :
    (a.tags = [] → (formattedDetails a).tags = ["None"])
  ∧ (a.tags ≠ [] → (formattedDetails a).tags = a.tags)
  ∧ (t.symbols_mentioned = some [] → (formatTweet i t).symbolsMentioned = [])
  ∧ (∀ l, t.symbols_mentioned = some l → (formatTweet i t).symbolsMentioned = l) := by
  refine ⟨fun h => ?_, fun h => ?_, fun h => ?_, fun l h => ?_⟩
  · simp [formattedDetails, h]
  · simp [formattedDetails, List.length_pos.mpr h]
  · simp [formatTweet, h]
  · simp [formatTweet, h]

/-- C7 witness: the asymmetry at concrete inputs — a profile with an empty
tag list, a profile with two tags, and a tweet with a present empty symbol
list. -/
theorem C7_empty_collection_asymmetry_witness :
    (formattedDetails authorAllAbsent).tags = ["None"]
  ∧ (formattedDetails authorWithTags).tags = ["influencer", "crypto"]
  ∧ (formatTweet 0 tweetNoSymbols).symbolsMentioned = [] :=
  ⟨(C7_empty_collection_asymmetry authorAllAbsent tweetNoSymbols 0).1 rfl,
   (C7_empty_collection_asymmetry authorWithTags tweetNoSymbols 0).2.1 (by decide),
   (C7_empty_collection_asymmetry authorAllAbsent tweetNoSymbols 0).2.2.1 rfl⟩

/-- C10: a present-but-empty string field (`name`, `bio`, `url_in_bio`,
`account_created_at`) is falsy, so `field || 'N/A'` renders it as the
sentinel `"N/A"`, exactly as if the field were absent. -/
theorem C10_empty_string_renders_sentinel (a : AuthorDetails) :
    (a.name = some "" → (formattedDetails a).name = "N/A")
  ∧ (a.bio = some "" → (formattedDetails a).bio = "N/A")
  ∧ (a.url_in_bio = some "" → (formattedDetails a).profileUrl = "N/A")
  ∧ (a.account_created_at = some "" → (formattedDetails a).accountCreated = "N/A") := by
  refine ⟨fun h => ?_, fun h => ?_, fun h => ?_, fun h => ?_⟩
  all_goals simp [formattedDetails, h, jsOrString]

/-- C10 witness: the empty-string rendering at the concrete profile whose
four string fields are present and empty. -/
theorem C10_empty_string_renders_sentinel_witness :
    (formattedDetails authorWithEmptyStrings).name = "N/A"
  ∧ (formattedDetails authorWithEmptyStrings).bio = "N/A"
  ∧ (formattedDetails authorWithEmptyStrings).profileUrl = "N/A"
  ∧ (formattedDetails authorWithEmptyStrings).accountCreated = "N/A" :=
  ⟨(C10_empty_string_renders_sentinel authorWithEmptyStrings).1 rfl,
   (C10_empty_string_renders_sentinel authorWithEmptyStrings).2.1 rfl,
   (C10_empty_string_renders_sentinel authorWithEmptyStrings).2.2.1 rfl,
   (C10_empty_string_renders_sentinel authorWithEmptyStrings).2.2.2 rfl⟩

/-- C8: upstream HTTP error statuses (axios rejections carrying a response):
404 yields the two operation-specific not-found messages, 429 yields the
shared rate-limit message, and any other status yields
`API error: <status> - <status text>`. -/
theorem C8_http_error_status_messages (r : HttpResp) (msg : Option String)
    (args : TopTweetsArgs) :
    (r.status = 404 →
      getAuthorDetailsRun (FetchOutcome.threw (JsError.axios (some r) msg))
        = "Author not found. Please check the handle and try again."
      ∧ getTopTweetsRun args (FetchOutcome.threw (JsError.axios (some r) msg))
        = "Author not found or no tweets available. Please check the handle and try again.")
  ∧ (r.status = 429 →
      getAuthorDetailsRun (FetchOutcome.threw (JsError.axios (some r) msg))
        = "Rate limit exceeded. Please try again later."
      ∧ getTopTweetsRun args (FetchOutcome.threw (JsError.axios (some r) msg))
        = "Rate limit exceeded. Please try again later.")
  ∧ (r.status ≠ 404 → r.status ≠ 429 →
      getAuthorDetailsRun (FetchOutcome.threw (JsError.axios (some r) msg))
        = "API error: " ++ toString r.status ++ " - " ++ r.statusText
      ∧ getTopTweetsRun args (FetchOutcome.threw (JsError.axios (some r) msg))
        = "API error: " ++ toString r.status ++ " - " ++ r.statusText) := by
  refine ⟨fun h => ?_, fun h => ?_, fun h404 h429 => ?_⟩
  all_goals constructor
  all_goals
    simp [getAuthorDetailsRun, getTopTweetsRun, getAuthorDetailsOnError,
      getTopTweetsOnError, authorDetailsAxiosBranch, topTweetsAxiosBranch,
      renderOptStatus, renderOptText, *]

/-- C8 witness: the status mapping at the concrete statuses 404, 429 and
500. -/
theorem C8_http_error_status_messages_witness :
    getAuthorDetailsRun (FetchOutcome.threw (JsError.axios (some ⟨404, "Not Found"⟩) none))
      = "Author not found. Please check the handle and try again."
  ∧ getTopTweetsRun sampleArgs
      (FetchOutcome.threw (JsError.axios (some ⟨404, "Not Found"⟩) none))
      = "Author not found or no tweets available. Please check the handle and try again."
  ∧ getAuthorDetailsRun
      (FetchOutcome.threw (JsError.axios (some ⟨429, "Too Many Requests"⟩) none))
      = "Rate limit exceeded. Please try again later."
  ∧ getAuthorDetailsRun
      (FetchOutcome.threw (JsError.axios (some ⟨500, "Internal Server Error"⟩) none))
      = "API error: 500 - Internal Server Error" :=
  ⟨(C8_http_error_status_messages ⟨404, "Not Found"⟩ none sampleArgs).1 rfl |>.1,
   (C8_http_error_status_messages ⟨404, "Not Found"⟩ none sampleArgs).1 rfl |>.2,
   ((C8_http_error_status_messages ⟨429, "Too Many Requests"⟩ none sampleArgs).2.1 rfl).1,
   (((C8_http_error_status_messages ⟨500, "Internal Server Error"⟩ none
      sampleArgs).2.2 (by decide) (by decide)).1).trans (by decide)⟩

/-- C5: no exception propagates — the whole handler body sits inside
`try`/`catch`, so every outcome of an invocation (any body, any HTTP
status, any transport failure, any thrown value) terminates by returning a
plain (non-empty) string.  The embedding makes each handler a total
function on the full outcome space; this theorem traverses every code path
and shows the returned string is always non-empty. -/
theorem C5_every_path_returns_plain_string :
    (∀ o : FetchOutcome CredBuzzResponse, 0 < (getAuthorDetailsRun o).length)
  ∧ (∀ (args : TopTweetsArgs) (o : FetchOutcome TopTweetsResponse),
      0 < (getTopTweetsRun args o).length) := by
  constructor
  · intro o
    match o with
    | FetchOutcome.ok none => decide
    | FetchOutcome.ok (some ⟨none, m⟩) =>
        exact (by decide :
          0 < ("No author details found for the provided handle." : String).length)
    | FetchOutcome.ok (some ⟨some a, m⟩) => exact stringify_obj_cons_length_pos 0 _ _ _
    | FetchOutcome.threw (JsError.axios none msg) =>
        exact (by decide : 0 < ("API error: undefined - undefined" : String).length)
    | FetchOutcome.threw (JsError.axios (some r) msg) =>
        show 0 < (authorDetailsAxiosBranch (some r)).length
        unfold authorDetailsAxiosBranch
        split
        · decide
        · split
          · decide
          · exact append_length_pos _ _ (append_length_pos _ _
              (append_length_pos _ _ (by decide)))
    | FetchOutcome.threw (JsError.jsError m) => exact append_length_pos _ _ (by decide)
    | FetchOutcome.threw JsError.other => decide
  · intro args o
    match o with
    | FetchOutcome.ok none =>
        exact (by decide : 0 < ("No response received from the API." : String).length)
    | FetchOutcome.ok (some ⟨none, m⟩) =>
        exact append_length_pos _ _ (append_length_pos _ _ (by decide))
    | FetchOutcome.ok (some ⟨some [], m⟩) =>
        exact append_length_pos _ _ (append_length_pos _ _ (by decide))
    | FetchOutcome.ok (some ⟨some (t :: ts), m⟩) =>
        exact stringify_obj_cons_length_pos 0 _ _ _
    | FetchOutcome.threw (JsError.axios none msg) =>
        exact (by decide : 0 < ("API error: undefined - undefined" : String).length)
    | FetchOutcome.threw (JsError.axios (some r) msg) =>
        show 0 < (topTweetsAxiosBranch (some r)).length
        unfold topTweetsAxiosBranch
        split
        · decide
        · split
          · decide
          · exact append_length_pos _ _ (append_length_pos _ _
              (append_length_pos _ _ (by decide)))
    | FetchOutcome.threw (JsError.jsError m) => exact append_length_pos _ _ (by decide)
    | FetchOutcome.threw JsError.other =>
        exact (by decide : 0 < ("Error fetching top tweets: Unknown error" : String).length)
